import Mathlib

/-!
Verification development for the `marvin` structured-extraction core
(`src/marvin/components/ai_model.py`).

The Python source is shallowly embedded below:
* Jinja2 prompt templates become a small template AST (`JTmpl`) together with
  an interpreter (`render`) implementing the semantics of jinja2's default
  `Template` (in particular the default `Undefined`: a bare interpolation of
  an undefined variable prints as the empty string, a truthiness test of it
  is `False`, while subscripting / attribute access / calling an undefined
  variable raises `UndefinedError`).
* Python `str.strip()` becomes `pystrip`.
* Python dicts (keyword-argument mappings) become association lists with
  first-match lookup (`dictGet`) and `dict.update` / `dict.pop` semantics
  (`dictUpdate`, `dictRemove`).
* `asyncio.gather` (with the default `return_exceptions=False`) becomes
  `gatherEx`, parameterised by the completion order of the tasks.
* Fallible calls are values of `Except`.
-/

namespace Marvin

/-! ## Python `str.strip()` -/

/-- Whitespace as recognised by Python's `str.strip()` (ASCII part; the
claims only exercise these characters). -/
def pyIsSpace (c : Char) : Bool :=
  c = ' ' || c = '\t' || c = '\n' || c = '\r' || c = '\x0b' || c = '\x0c'

/-- Drop leading whitespace from a character list. -/
def ltrimC (l : List Char) : List Char := l.dropWhile pyIsSpace

/-- Drop trailing whitespace from a character list. -/
def rtrimC (l : List Char) : List Char := (ltrimC l.reverse).reverse

/-- Python `s.strip()`: remove leading and trailing whitespace. -/
def pystrip (s : String) : String := ⟨rtrimC (ltrimC s.data)⟩

theorem dropWhile_self (p : Char → Bool) (l : List Char) :
    (l.dropWhile p).dropWhile p = l.dropWhile p := by
  induction l with
  | nil => rfl
  | cons c t ih =>
    by_cases h : p c
    · simp [List.dropWhile, h, ih]
    · simp [List.dropWhile, h]

theorem dropWhile_length_le (p : Char → Bool) (l : List Char) :
    (l.dropWhile p).length ≤ l.length := by
  induction l with
  | nil => simp [List.dropWhile]
  | cons c t ih =>
    simp only [List.dropWhile]
    cases h : p c
    · simp
    · simp only [List.length_cons]
      omega

theorem dropWhile_append_chars (p : Char → Bool) (l₁ l₂ : List Char) :
    (l₁ ++ l₂).dropWhile p =
      if l₁.dropWhile p = [] then l₂.dropWhile p else l₁.dropWhile p ++ l₂ := by
  induction l₁ with
  | nil => simp [List.dropWhile]
  | cons c t ih =>
    by_cases h : p c
    · simpa [List.dropWhile, h] using ih
    · simp [List.dropWhile, h]

theorem ltrimC_ltrimC (l : List Char) : ltrimC (ltrimC l) = ltrimC l :=
  dropWhile_self pyIsSpace l

theorem rtrimC_rtrimC (l : List Char) : rtrimC (rtrimC l) = rtrimC l := by
  unfold rtrimC
  rw [List.reverse_reverse, ltrimC_ltrimC]

theorem head_not_space_of_ltrimmed (c : Char) (t : List Char)
    (h : ltrimC (c :: t) = c :: t) : pyIsSpace c = false := by
  cases hx : pyIsSpace c
  · rfl
  · exfalso
    have hstep : ltrimC (c :: t) = t.dropWhile pyIsSpace := by
      simp [ltrimC, List.dropWhile, hx]
    rw [h] at hstep
    have hlen : (t.dropWhile pyIsSpace).length ≤ t.length :=
      dropWhile_length_le pyIsSpace t
    rw [← hstep] at hlen
    simp only [List.length_cons] at hlen
    omega

theorem rtrimC_cons (c : Char) (t : List Char) :
    rtrimC (c :: t) =
      if rtrimC t = [] then (if pyIsSpace c then [] else [c]) else c :: rtrimC t := by
  have key : (c :: t).reverse.dropWhile pyIsSpace
      = if t.reverse.dropWhile pyIsSpace = [] then [c].dropWhile pyIsSpace
        else t.reverse.dropWhile pyIsSpace ++ [c] := by
    rw [List.reverse_cons, dropWhile_append_chars]
  by_cases h : t.reverse.dropWhile pyIsSpace = []
  · have ht : rtrimC t = [] := by unfold rtrimC ltrimC; simp [h]
    rw [if_pos ht]
    unfold rtrimC ltrimC
    rw [key, if_pos h]
    by_cases hc : pyIsSpace c <;> simp [List.dropWhile, hc]
  · have ht : rtrimC t ≠ [] := by
      unfold rtrimC ltrimC
      intro hh
      exact h (by simpa using congrArg List.reverse hh)
    rw [if_neg ht]
    unfold rtrimC ltrimC
    rw [key, if_neg h, List.reverse_append]
    simp

theorem ltrimC_rtrimC_of_ltrimmed (l : List Char) (h : ltrimC l = l) :
    ltrimC (rtrimC l) = rtrimC l := by
  cases l with
  | nil => rfl
  | cons c t =>
    have hc : pyIsSpace c = false := head_not_space_of_ltrimmed c t h
    rw [rtrimC_cons]
    by_cases ht : rtrimC t = []
    · rw [if_pos ht, if_neg (by simp [hc])]
      simp [ltrimC, List.dropWhile, hc]
    · rw [if_neg ht]
      simp [ltrimC, List.dropWhile, hc]

theorem pystrip_pystrip (s : String) : pystrip (pystrip s) = pystrip s := by
  unfold pystrip
  have h1 : ltrimC (rtrimC (ltrimC s.data)) = rtrimC (ltrimC s.data) :=
    ltrimC_rtrimC_of_ltrimmed (ltrimC s.data) (ltrimC_ltrimC s.data)
  simp [h1, rtrimC_rtrimC]

theorem dropWhile_ne_nil_of_mem (p : Char → Bool) (l : List Char) (c : Char)
    (hc : c ∈ l) (hp : p c = false) : l.dropWhile p ≠ [] := by
  intro h
  have := List.dropWhile_eq_nil_iff.mp h c hc
  rw [hp] at this
  exact Bool.false_ne_true this

theorem pystrip_ne_empty_of_mem (s : String) (c : Char)
    (hc : c ∈ s.data) (hp : pyIsSpace c = false) : pystrip s ≠ "" := by
  intro h
  have hdata : rtrimC (ltrimC s.data) = [] := by
    have := congrArg String.data h
    simpa [pystrip] using this
  have h1 : ltrimC s.data ≠ [] :=
    dropWhile_ne_nil_of_mem pyIsSpace s.data c hc hp
  rcases hh : ltrimC s.data with _ | ⟨c₀, t₀⟩
  · exact h1 hh
  · have hstep : ltrimC (c₀ :: t₀) = c₀ :: t₀ := by
      rw [← hh]; rw [ltrimC_ltrimC, hh]
    have hc₀ : pyIsSpace c₀ = false := head_not_space_of_ltrimmed c₀ t₀ hstep
    rw [hh] at hdata
    have h2 : (c₀ :: t₀).reverse.dropWhile pyIsSpace = [] := by
      have := congrArg List.reverse hdata
      simpa [rtrimC, ltrimC] using this
    have hmem : c₀ ∈ (c₀ :: t₀).reverse := by simp
    have hall := List.dropWhile_eq_nil_iff.mp h2 c₀ hmem
    rw [hc₀] at hall
    exact Bool.false_ne_true hall

theorem string_append_data (a b : String) : (a ++ b).data = a.data ++ b.data := by
  cases a; cases b; rfl

theorem pystrip_append_ne_empty (a b : String) (c : Char)
    (hc : c ∈ a.data) (hp : pyIsSpace c = false) : pystrip (a ++ b) ≠ "" := by
  apply pystrip_ne_empty_of_mem (a ++ b) c
  · rw [string_append_data]
    exact List.mem_append_left _ hc
  · exact hp

theorem pystrip_append_ws (x w : String)
    (hw : ∀ c ∈ w.data, pyIsSpace c = true) : pystrip (x ++ w) = pystrip x := by
  unfold pystrip
  rw [string_append_data]
  congr 1
  unfold ltrimC
  rw [dropWhile_append_chars]
  have hwnil : w.data.dropWhile pyIsSpace = [] :=
    List.dropWhile_eq_nil_iff.mpr hw
  by_cases hx : x.data.dropWhile pyIsSpace = []
  · simp [hx, hwnil]
  · rw [if_neg hx]
    unfold rtrimC ltrimC
    rw [List.reverse_append, dropWhile_append_chars]
    have hwrev : w.data.reverse.dropWhile pyIsSpace = [] :=
      List.dropWhile_eq_nil_iff.mpr (by intro c hcm; exact hw c (by simpa using hcm))
    simp [hwrev]

/-! ## Jinja2 template model

The prompt templates of `ai_model.py` are jinja2 templates.  `JTmpl` is the
abstract syntax of the fragment those templates use, and `render` gives it
the semantics of `jinja2.Template(...).render(**kwargs)` with the default
environment (no `trim_blocks`/`lstrip_blocks`, default `Undefined`).
-/

/-- A value bound in the render environment: a string, Python `None`,
the function registry (a list exposing each function's `__name__`), or a
context function (`text -> mapping`). -/
inductive JValue where
  | jstr (s : String)
  | jnone
  | jfuncs (names : List String)
  | jctx (f : String → List (String × String))

/-- Errors raised during rendering.  With the default `Undefined`,
subscripting, attribute access on, or calling an undefined variable raises
`UndefinedError`; operations on a value of the wrong shape raise a
`TypeError`-like error. -/
inductive JErr where
  | undefinedError
  | typeError
deriving DecidableEq, Repr

/-- Jinja truthiness of a (possibly undefined) variable: the default
`Undefined` and `None` are falsy, a string is truthy iff non-empty, a list
iff non-empty, a function object is truthy. -/
def truthy : Option JValue → Bool
  | none => false
  | some (.jstr s) => if s = "" then false else true
  | some .jnone => false
  | some (.jfuncs l) => if l = [] then false else true
  | some (.jctx _) => true

/-- How `{{ x }}` prints a defined value (`str(x)`); the registry/function
cases are reprs that no template of the source ever interpolates. -/
def display : JValue → String
  | .jstr s => s
  | .jnone => "None"
  | .jfuncs _ => ""
  | .jctx _ => ""

/-- Template syntax: literal text, `{{ name }}`, the expression
`{{ name[0].__name__ }}`, `{% if name %}body{% endif %}`,
`{% for (arg, value) in name(textName).items() %}item{% endfor %}` (with
`item` the rendering of the loop body at one key/value pair), and
sequencing. -/
inductive JTmpl where
  | lit (s : String)
  | var (name : String)
  | idx0Name (name : String)
  | ifTruthy (name : String) (body : JTmpl)
  | forCtx (fnName textName : String) (item : String → String → String)
  | seq (a b : JTmpl)

/-- Render a template against an environment; `none` means the variable is
undefined.  A bare `{{ x }}` of an undefined variable prints as `""` (the
default `Undefined.__str__`), while `x[0].__name__` or calling `x(...)`
raises. -/
def render (env : String → Option JValue) : JTmpl → Except JErr String
  | .lit s => .ok s
  | .var n =>
    match env n with
    | some v => .ok (display v)
    | none => .ok ""
  | .idx0Name n =>
    match env n with
    | some (.jfuncs (f :: _)) => .ok f
    | some (.jfuncs []) => .error .undefinedError
    | some _ => .error .typeError
    | none => .error .undefinedError
  | .ifTruthy n b => if truthy (env n) then render env b else .ok ""
  | .forCtx fn tn item =>
    match env fn with
    | some (.jctx f) =>
      let t := match env tn with
        | some (.jstr s) => s
        | _ => ""
      .ok (String.join ((f t).map (fun p => item p.1 p.2)))
    | some _ => .error .typeError
    | none => .error .undefinedError
  | .seq a b => do
    let x ← render env a
    let y ← render env b
    pure (x ++ y)

/-- Right-nested sequencing of a list of template nodes. -/
def jseq (l : List JTmpl) : JTmpl := l.foldr JTmpl.seq (.lit "")

/-- `system_extract_prompt` of `ai_model.py` (after `inspect.cleandoc`),
as template syntax.  The literal text, including trailing spaces and the
whitespace-only lines, is byte-for-byte that of the source. -/
def systemExtractPrompt : JTmpl := jseq [
  .lit "The user will provide context as text that you need to parse into a structured form. \n    - To validate your response, you must call the `",
  .idx0Name "functions",
  .lit "` function.\n    - Use the provided text to extract or infer any parameters needed by `",
  .idx0Name "functions",
  .lit "`, including any missing data.\n                                      \n",
  .ifTruthy "instructions" (jseq [
    .lit "\nThe user has provided some additional requirements for this task: ",
    .var "instructions",
    .lit " \n"]),
  .lit "\n                                         \n",
  .ifTruthy "context_fn" (jseq [
    .lit "\n",
    .forCtx "context_fn" "text" (fun arg value => arg ++ ": " ++ value),
    .lit "\n"])]

/-- `system_generate_prompt` of `ai_model.py` (after `inspect.cleandoc`),
as template syntax. -/
def systemGeneratePrompt : JTmpl := jseq [
  .lit "The user will provide context as text that you need to parse to generate synthetic data.\n    - To validate your response, you must call the `",
  .idx0Name "functions",
  .lit "` function.\n    - Use the provided text to generate or invent any parameters needed by `",
  .idx0Name "functions",
  .lit "`, including any missing data.\n    - It is okay to make up representative data.\n",
  .ifTruthy "instructions" (jseq [
    .lit "You have been provided instructions on completing your task: ",
    .var "instructions"]),
  .ifTruthy "context_fn" (jseq [
    .lit "You have been provided the following context to perform your task:\n",
    .forCtx "context_fn" "text" (fun arg value => "    - " ++ arg ++ ": " ++ value ++ "\n")])]

/-- `user_prompt` of `ai_model.py` (after `inspect.cleandoc`, which keeps
the whitespace-only final line). -/
def userPrompt : JTmpl := jseq [
  .lit "The text to parse: ",
  .var "text",
  .lit "\n    "]

/-! ## Schema Descriptor and Function Call Spec Builder

`AIModel._functions` builds a one-element `FunctionRegistry` holding
`Function.from_model(type("format_response", (cls,), {**dict(cls.__dict__)}),
name="format_response", description=...)`.  `Function`/`FunctionRegistry`
live in `marvin.types`, outside the visible source.
-/

/-- A Schema Definition: the caller-declared pydantic model, reduced to its
class name and its named, ordered, typed fields. -/
structure SchemaDefn where
  name : String
  fields : List (String × String)
deriving DecidableEq, Repr

/-- Modelled from the spec: the "JSON-schema-shaped parameter description
reflecting the Schema Definition's fields and types" that pydantic derives
from a model class (title from the class name, an object with properties). -/
structure ParamSchema where
  title : String
  jsonType : String
  properties : List (String × String)
deriving DecidableEq, Repr

/-- Modelled from the spec: the parameter schema pydantic produces for a
Schema Definition. -/
def paramSchemaOf (s : SchemaDefn) : ParamSchema :=
  { title := s.name, jsonType := "object", properties := s.fields }

/-- Modelled from the spec: `marvin.types.Function` (not under `src/`): a
callable wrapper around a model class, carrying the function name used in
the schema form, the wrapped class's `__name__` (the raw form), the
description, and the parameter schema. -/
structure FunctionSpec where
  name : String
  dunderName : String
  description : String
  parameters : ParamSchema
deriving DecidableEq, Repr

/-- Modelled from the spec: `Function.from_model(model, name=, description=)`
wraps `model`; its `__name__` is the wrapped (dynamically created) class's
name, and its schema-form name is the `name` argument. -/
def Function.from_model (model : SchemaDefn) (name description : String) :
    FunctionSpec :=
  { name := name
    dunderName := model.name
    description := description
    parameters := paramSchemaOf model }

/-- The dynamic subclass `type("format_response", (cls,), {**dict(cls.__dict__)})`:
same fields, renamed. -/
def renameSchema (s : SchemaDefn) (n : String) : SchemaDefn :=
  { s with name := n }

/-- Modelled from the spec: `FunctionRegistry.schema()` reports, per
registered function, the schema-form entry (name/description/parameters)
embedded into the backend request. -/
structure FunctionSchemaEntry where
  name : String
  description : String
  parameters : ParamSchema
deriving DecidableEq, Repr

/-- Schema form of one registered function. -/
def FunctionSpec.schemaEntry (f : FunctionSpec) : FunctionSchemaEntry :=
  { name := f.name, description := f.description, parameters := f.parameters }

/-- The fixed boilerplate directive of `AIModel._functions`, without the
trailing `"\n\n"` that precedes the `{0}` placeholder. -/
def formatResponseBoilerplate : String :=
  "You MUST always call this function before responding to the user to ensure that your final response is formatted correctly and complies with the output format requirements."

/-- `AIModel._functions`: the one-element registry.  The description is the
format-string literal of the source with `{0}` replaced by
`instructions or ""`, then `.strip()`ed. -/
def aiFunctions (cls : SchemaDefn) (instructions : Option String) :
    List FunctionSpec :=
  [Function.from_model (renameSchema cls "format_response") "format_response"
    (pystrip
      ("You MUST always call this function before responding to the user to ensure that your final response is formatted correctly and complies with the output format requirements.\n\n"
        ++ instructions.getD ""))]

/-- `AIModel._function_call`: the forced-call directive
`{"name": ...}`, in schema form (`registry.schema()[0].get("name")`) or raw
form (`registry[0].__name__`).  `.get`/`[0]` are partial, hence `Option`. -/
def aiFunctionCall (cls : SchemaDefn) (instructions : Option String)
    (schemaFlag : Bool) : Option String :=
  if schemaFlag then
    ((aiFunctions cls instructions).map FunctionSpec.schemaEntry).head?.map
      FunctionSchemaEntry.name
  else
    (aiFunctions cls instructions).head?.map FunctionSpec.dunderName

/-! ## `AIModel.as_decorator`

The decorator dynamically subclasses the base model and binds per-call
configuration onto `_messages` (system/user templates, instructions,
context function) and `_functions` (instructions) with `functools`.  It is
embedded as an explicit configuration record.
-/

/-- The `mode` argument of `as_decorator`. -/
inductive Mode where
  | extract
  | generate
deriving DecidableEq, Repr

/-- The configuration `as_decorator` attaches to the returned subclass. -/
structure AIModelConfig where
  schema : SchemaDefn
  system : JTmpl
  user : JTmpl
  instructions : Option String
  context_fn : Option (String → List (String × String))

/-- `AIModel.as_decorator` with a base model: returns the configured
subclass.  `system or (system_extract_prompt if mode == "extract" else
system_generate_prompt)` picks the system template; `mode` is used nowhere
else. -/
def as_decorator (base : SchemaDefn) (system : Option JTmpl) (user : JTmpl)
    (instructions : Option String)
    (context_fn : Option (String → List (String × String)))
    (mode : Mode) : AIModelConfig :=
  { schema := base
    system := system.getD
      (match mode with
        | .extract => systemExtractPrompt
        | .generate => systemGeneratePrompt)
    user := user
    instructions := instructions
    context_fn := context_fn }

/-- `_functions` of a decorated subclass (instructions bound by the
decorator). -/
def configFunctions (c : AIModelConfig) : List FunctionSpec :=
  aiFunctions c.schema c.instructions

/-- `_function_call` of a decorated subclass. -/
def configFunctionCall (c : AIModelConfig) (schemaFlag : Bool) : Option String :=
  aiFunctionCall c.schema c.instructions schemaFlag

/-! ## Prompt Renderer (`AIModel._messages`) -/

/-- One rendered prompt message. -/
structure PromptMessage where
  role : String
  content : String
deriving DecidableEq, Repr

/-- The keyword arguments `_messages` renders the templates against (the
`defaults`, `system` and `user` keys also present in the Python kwargs are
never referenced by any template and are omitted). -/
structure MessagesEnv where
  text : String
  functions : List String
  instructions : Option String
  context_fn : Option (String → List (String × String))

/-- The jinja render environment built from the kwargs of `_messages`. -/
def envOf (e : MessagesEnv) : String → Option JValue := fun n =>
  if n = "text" then some (.jstr e.text)
  else if n = "functions" then some (.jfuncs e.functions)
  else if n = "instructions" then
    some (match e.instructions with
      | some s => .jstr s
      | none => .jnone)
  else if n = "context_fn" then
    some (match e.context_fn with
      | some f => .jctx f
      | none => .jnone)
  else none

theorem envOf_text (e : MessagesEnv) : envOf e "text" = some (.jstr e.text) := rfl

theorem envOf_functions (e : MessagesEnv) :
    envOf e "functions" = some (.jfuncs e.functions) := rfl

theorem envOf_instructions (e : MessagesEnv) :
    envOf e "instructions" = some (match e.instructions with
      | some s => .jstr s
      | none => .jnone) := rfl

theorem envOf_context_fn (e : MessagesEnv) :
    envOf e "context_fn" = some (match e.context_fn with
      | some f => .jctx f
      | none => .jnone) := rfl

/-- `AIModel._messages`: render the `system` then the `user` template and
strip each, producing `[{"role": "system", ...}, {"role": "user", ...}]`.
A jinja error propagates. -/
def aiMessages (system user : JTmpl) (env : String → Option JValue) :
    Except JErr (List PromptMessage) := do
  let s ← render env system
  let u ← render env user
  pure [⟨"system", pystrip s⟩, ⟨"user", pystrip u⟩]

/-- The `_messages` call made by `as_prompt` on a decorated subclass: the
template variables are the input text, the function registry produced by
`_functions` (the templates read each entry's `__name__`), and the
effective instructions (call-site instructions if truthy — keywords at the
call site override the ones bound by `functools` — else the decorator's). -/
def asPromptMessages (c : AIModelConfig) (text : String)
    (instructions : Option String) : Except JErr (List PromptMessage) :=
  let eff := match instructions with
    | some s => if s = "" then c.instructions else some s
    | none => c.instructions
  aiMessages c.system c.user
    (envOf
      { text := text
        functions := (configFunctions c).map FunctionSpec.dunderName
        instructions := eff
        context_fn := c.context_fn })

/-! ## `AIModel.__init__`

Keyword arguments are a Python dict: an association list with unique keys,
first-match lookup, in-place `update` (later assignments override) and
`pop`.
-/

/-- Python `d.get(k)` / `d[k]`: first matching key. -/
def dictGet : List (String × α) → String → Option α
  | [], _ => none
  | (k', v') :: rest, k => if k' = k then some v' else dictGet rest k

/-- Python `d[k] = v`: replace the first binding of `k`, else append. -/
def dictSet : List (String × α) → String → α → List (String × α)
  | [], k, v => [(k, v)]
  | (k', v') :: rest, k, v =>
    if k' = k then (k, v) :: rest else (k', v') :: dictSet rest k v

/-- Python `d.update(k)`: assign each binding of the second dict in order. -/
def dictUpdate : List (String × α) → List (String × α) → List (String × α)
  | d, [] => d
  | d, (k, v) :: rest => dictUpdate (dictSet d k v) rest

/-- Python `d.pop(k, None)`, the removal part. -/
def dictRemove : List (String × α) → String → List (String × α)
  | [], _ => []
  | (k', v') :: rest, k => if k' = k then rest else (k', v') :: dictRemove rest k

/-- `AIModel.__init__(self, *args, **kwargs)`: pop `instructions_`; if the
first positional argument is a truthy string, call the model
(`cls.call(text, instructions=...)`, abstracted as `call`) and merge the
extracted mapping over the remaining kwargs; hand the result to pydantic
validation (`super().__init__(**kwargs)`).  The returned dict is exactly
the kwargs passed to validation. -/
def aimodelInit (call : String → Option α → List (String × α))
    (args : List String) (kwargs : List (String × α)) : List (String × α) :=
  let instructions := dictGet kwargs "instructions_"
  let kw := dictRemove kwargs "instructions_"
  match args.head? with
  | some t => if t = "" then kw else dictUpdate kw (call t instructions)
  | none => kw

/-! ## Batch Mapper (`AIModel.amap` / `AIModel.map`)

`amap` builds one `acall` task per index by transposing the argument
sequences with `zip(*...)`, then awaits `asyncio.gather(*tasks)` (default
`return_exceptions=False`).  Each task's outcome is a value of `Except`;
`gather` is parameterised by the order in which tasks complete: it raises
the error of the earliest-completing failed task, and returns the results
in input order when every task succeeds.  `map` is `run_sync(amap(...))`
and inherits this behaviour unchanged.
-/

/-- Python `zip(*lists)`: transpose, truncated to the shortest list;
`zip()` of no iterables is empty. -/
def pyzipN : List (List α) → List (List α)
  | [] => []
  | [l] => l.map (fun x => [x])
  | l :: ls => (l.zip (pyzipN ls)).map (fun p => p.1 :: p.2)

/-- The error of the earliest-completing failed task, scanning indices in
completion order. -/
def firstCompletedError (tasks : List (Except ε α)) : List Nat → Option ε
  | [] => none
  | i :: rest =>
    match tasks.get? i with
    | some (.error e) => some e
    | _ => firstCompletedError tasks rest

/-- Collect the results of an all-successful task list, in input order. -/
def collectOk : List (Except ε α) → Except ε (List α)
  | [] => .ok []
  | .ok v :: rest => (collectOk rest).map (fun l => v :: l)
  | .error e :: _ => .error e

/-- `asyncio.gather(*tasks)` with `return_exceptions=False`, given the
completion order `perm` of the task indices: if any task failed, the
whole gather raises the error of the first failure to complete (finished
sibling results are discarded); otherwise it returns the list of results
in input order. -/
def gatherEx (perm : List Nat) (tasks : List (Except ε α)) :
    Except ε (List α) :=
  match firstCompletedError tasks perm with
  | some e => .error e
  | none => collectOk tasks

/-- The task list of `AIModel.amap`: one `acall` per index.  With no
keyword sequences, `[cls.acall(*a) for a in zip(*map_args)]`; otherwise
`zip(zip(*map_args), zip(*map_kwargs.values()))` paired with the keyword
names.  `call` abstracts `cls.acall` (positional arguments plus a keyword
mapping). -/
def amapTasks (call : List σ → List (String × σ) → Except ε β)
    (map_args : List (List σ)) (map_kwargs : List (String × List σ)) :
    List (Except ε β) :=
  match map_kwargs with
  | [] => (pyzipN map_args).map (fun a => call a [])
  | _ :: _ =>
    ((pyzipN map_args).zip (pyzipN (map_kwargs.map Prod.snd))).map
      (fun p => call p.1 ((map_kwargs.map Prod.fst).zip p.2))

/-- `AIModel.amap`, with the backend call abstracted and the completion
order of the concurrent tasks made explicit. -/
def amap (call : List σ → List (String × σ) → Except ε β) (perm : List Nat)
    (map_args : List (List σ)) (map_kwargs : List (String × List σ)) :
    Except ε (List β) :=
  gatherEx perm (amapTasks call map_args map_kwargs)

/-! ## String helpers used by the claim proofs -/

theorem string_data_inj {a b : String} (h : a.data = b.data) : a = b := by
  cases a; cases b; cases h; rfl

theorem string_append_assoc (a b c : String) : (a ++ b) ++ c = a ++ (b ++ c) :=
  string_data_inj (by simp [string_append_data])

/-! ## C1, C6, C7: Schema Descriptor / Function Call Spec Builder claims -/

/-- C1: for every schema and both modes, the function name inside the
forced-call directive produced by `_function_call` equals the name of the
sole function in the registry produced by `_functions`, in schema form and
in raw form; that name is `"format_response"`. -/
theorem forced_call_name_matches_registry (base : SchemaDefn)
    (system : Option JTmpl) (user : JTmpl) (instructions : Option String)
    (context_fn : Option (String → List (String × String))) (mode : Mode) :
    configFunctionCall (as_decorator base system user instructions context_fn mode) true
        = some "format_response"
    ∧ configFunctionCall (as_decorator base system user instructions context_fn mode) false
        = some "format_response"
    ∧ (configFunctions (as_decorator base system user instructions context_fn mode)).map
        FunctionSpec.name = ["format_response"]
    ∧ (configFunctions (as_decorator base system user instructions context_fn mode)).map
        FunctionSpec.dunderName = ["format_response"] :=
  ⟨rfl, rfl, rfl, rfl⟩

/-- C6: switching the decorator mode between `extract` and `generate`
changes only which boilerplate system prompt is used; the function
registry — in particular the parameter schema of the sole function
specification — is identical in both modes, as are all other configured
pieces. -/
theorem mode_independence_of_schema (base : SchemaDefn) (user : JTmpl)
    (instructions : Option String)
    (context_fn : Option (String → List (String × String))) :
    ((configFunctions (as_decorator base none user instructions context_fn .extract)).map
        FunctionSpec.parameters
      = (configFunctions (as_decorator base none user instructions context_fn .generate)).map
        FunctionSpec.parameters)
    ∧ configFunctions (as_decorator base none user instructions context_fn .extract)
      = configFunctions (as_decorator base none user instructions context_fn .generate)
    ∧ (as_decorator base none user instructions context_fn .extract).schema
      = (as_decorator base none user instructions context_fn .generate).schema
    ∧ (as_decorator base none user instructions context_fn .extract).user
      = (as_decorator base none user instructions context_fn .generate).user
    ∧ (as_decorator base none user instructions context_fn .extract).instructions
      = (as_decorator base none user instructions context_fn .generate).instructions
    ∧ (as_decorator base none user instructions context_fn .extract).context_fn
      = (as_decorator base none user instructions context_fn .generate).context_fn
    ∧ (as_decorator base none user instructions context_fn .extract).system
      = systemExtractPrompt
    ∧ (as_decorator base none user instructions context_fn .generate).system
      = systemGeneratePrompt :=
  ⟨rfl, rfl, rfl, rfl, rfl, rfl, rfl, rfl⟩

set_option maxRecDepth 100000 in
theorem boilerplate_with_sep :
    "You MUST always call this function before responding to the user to ensure that your final response is formatted correctly and complies with the output format requirements.\n\n"
      = formatResponseBoilerplate ++ "\n\n" := by decide

set_option maxRecDepth 100000 in
/-- C7: for every schema and optional instructions, `_functions` yields a
specification named `"format_response"` whose description is the fixed
boilerplate directive with the instructions appended (after the `"\n\n"`
separator of the format string) and stripped — the boilerplate alone when
no instructions are given. -/
theorem format_response_description (cls : SchemaDefn)
    (instructions : Option String) :
    (aiFunctions cls instructions).map FunctionSpec.name = ["format_response"]
    ∧ (aiFunctions cls instructions).map FunctionSpec.description
        = [pystrip (formatResponseBoilerplate ++ ("\n\n" ++ instructions.getD ""))]
    ∧ (instructions = none →
        (aiFunctions cls instructions).map FunctionSpec.description
          = [formatResponseBoilerplate]) := by
  refine ⟨rfl, ?_, ?_⟩
  · simp only [aiFunctions, Function.from_model, List.map_cons, List.map_nil]
    rw [boilerplate_with_sep, string_append_assoc]
  · intro h
    subst h
    simp only [aiFunctions, Function.from_model, List.map_cons, List.map_nil,
      Option.getD_none, String.append_empty]
    decide

/-- Witness for C7 at a concrete schema, with and without instructions. -/
theorem format_response_description_witness :
    (aiFunctions ⟨"Location", [("city", "string")]⟩ none).map
        FunctionSpec.description = [formatResponseBoilerplate]
    ∧ (aiFunctions ⟨"Location", [("city", "string")]⟩ (some "be brief")).map
        FunctionSpec.description
      = [pystrip (formatResponseBoilerplate ++ ("\n\n" ++ "be brief"))] :=
  ⟨(format_response_description ⟨"Location", [("city", "string")]⟩ none).2.2 rfl,
   (format_response_description ⟨"Location", [("city", "string")]⟩ (some "be brief")).2.1⟩

/-! ## C10: `AIModel.__init__` merge behaviour -/

theorem dictGet_dictSet_eq (d : List (String × α)) (k : String) (v : α) :
    dictGet (dictSet d k v) k = some v := by
  induction d with
  | nil => simp [dictSet, dictGet]
  | cons p rest ih =>
    obtain ⟨k₀, v₀⟩ := p
    by_cases h₀ : k₀ = k
    · subst h₀; simp [dictSet, dictGet]
    · simp [dictSet, h₀, dictGet, ih]

theorem dictGet_dictSet_ne (d : List (String × α)) (k k' : String) (v : α)
    (h : k ≠ k') : dictGet (dictSet d k v) k' = dictGet d k' := by
  induction d with
  | nil => simp [dictSet, dictGet, h]
  | cons p rest ih =>
    obtain ⟨k₀, v₀⟩ := p
    by_cases h₀ : k₀ = k
    · subst h₀; simp [dictSet, dictGet, h]
    · by_cases h₁ : k₀ = k'
      · subst h₁
        simp [dictSet, dictGet, h₀]
      · simp [dictSet, dictGet, h₀, h₁, ih]

theorem dictGet_dictUpdate_not_mem (d upd : List (String × α)) (k : String)
    (h : ∀ p ∈ upd, p.1 ≠ k) :
    dictGet (dictUpdate d upd) k = dictGet d k := by
  induction upd generalizing d with
  | nil => rfl
  | cons p rest ih =>
    obtain ⟨k₀, v₀⟩ := p
    show dictGet (dictUpdate (dictSet d k₀ v₀) rest) k = dictGet d k
    rw [ih (dictSet d k₀ v₀) (fun q hq => h q (List.mem_cons_of_mem _ hq))]
    exact dictGet_dictSet_ne d k₀ k v₀ (h ⟨k₀, v₀⟩ (List.mem_cons_self _ _))

theorem dictGet_dictUpdate_of_get (d upd : List (String × α)) (k : String)
    (v : α) (hnodup : (upd.map Prod.fst).Nodup) (hget : dictGet upd k = some v) :
    dictGet (dictUpdate d upd) k = some v := by
  induction upd generalizing d with
  | nil => simp [dictGet] at hget
  | cons p rest ih =>
    obtain ⟨k₀, v₀⟩ := p
    show dictGet (dictUpdate (dictSet d k₀ v₀) rest) k = some v
    have hn : (k₀ :: rest.map Prod.fst).Nodup := by simpa using hnodup
    have hhead : k₀ ∉ rest.map Prod.fst := (List.nodup_cons.mp hn).1
    have htail : (rest.map Prod.fst).Nodup := (List.nodup_cons.mp hn).2
    by_cases h₀ : k₀ = k
    · subst h₀
      have hv : v₀ = v := by simpa [dictGet] using hget
      subst hv
      have hnotmem : ∀ q ∈ rest, q.1 ≠ k₀ := by
        intro q hq hqk
        apply hhead
        rw [← hqk]
        exact List.mem_map_of_mem Prod.fst hq
      rw [dictGet_dictUpdate_not_mem _ _ _ hnotmem]
      exact dictGet_dictSet_eq d k₀ v₀
    · have hget' : dictGet rest k = some v := by simpa [dictGet, h₀] using hget
      exact ih (dictSet d k₀ v₀) htail hget'

theorem aimodelInit_nil (call : String → Option α → List (String × α))
    (kwargs : List (String × α)) :
    aimodelInit call [] kwargs = dictRemove kwargs "instructions_" := rfl

theorem aimodelInit_cons (call : String → Option α → List (String × α))
    (a : String) (rest : List String) (kwargs : List (String × α)) :
    aimodelInit call (a :: rest) kwargs
      = if a = "" then dictRemove kwargs "instructions_"
        else dictUpdate (dictRemove kwargs "instructions_")
          (call a (dictGet kwargs "instructions_")) := rfl

/-- C10: in `AIModel.__init__`, a truthy first positional argument triggers
the model call, whose extracted mapping is merged over the caller kwargs
(extracted values override caller-supplied values for the same field)
before validation; with no positional argument, or a falsy one such as
`""`, no model call occurs and validation receives the caller kwargs alone
(minus the popped `instructions_`). -/
theorem init_merge_behaviour (call call₂ : String → Option α → List (String × α))
    (args : List String) (kwargs : List (String × α)) (t f : String) (v : α) :
    ((args.head? = some t ∧ t ≠ ""
        ∧ ((call t (dictGet kwargs "instructions_")).map Prod.fst).Nodup
        ∧ dictGet (call t (dictGet kwargs "instructions_")) f = some v)
      → dictGet (aimodelInit call args kwargs) f = some v)
    ∧ ((args.head? = none ∨ args.head? = some "")
      → aimodelInit call args kwargs = dictRemove kwargs "instructions_"
        ∧ aimodelInit call args kwargs = aimodelInit call₂ args kwargs) := by
  constructor
  · rintro ⟨h1, h2, h3, h4⟩
    rcases args with _ | ⟨a, rest⟩
    · simp at h1
    · have ha : a = t := by simpa using h1
      subst ha
      rw [aimodelInit_cons, if_neg h2]
      exact dictGet_dictUpdate_of_get _ _ _ _ h3 h4
  · rintro (h | h)
    · rcases args with _ | ⟨a, rest⟩
      · exact ⟨aimodelInit_nil call kwargs,
          (aimodelInit_nil call kwargs).trans (aimodelInit_nil call₂ kwargs).symm⟩
      · simp at h
    · rcases args with _ | ⟨a, rest⟩
      · simp at h
      · have ha : a = "" := by simpa using h
        subst ha
        refine ⟨?_, ?_⟩
        · rw [aimodelInit_cons, if_pos rfl]
        · rw [aimodelInit_cons call "" rest kwargs,
            aimodelInit_cons call₂ "" rest kwargs, if_pos rfl, if_pos rfl]

/-- Witness for C10: extraction overrides the caller-supplied `city`, and a
batch with no positional text validates the kwargs alone with any model
call irrelevant. -/
theorem init_merge_behaviour_witness :
    dictGet (aimodelInit (fun _ _ => [("city", "Chicago")]) ["windy city"]
        [("city", "unknown"), ("instructions_", "none")]) "city" = some "Chicago"
    ∧ aimodelInit (fun (_ : String) (_ : Option String) => [("city", "Chicago")]) []
        [("city", "unknown"), ("instructions_", "none")] = [("city", "unknown")] := by
  constructor
  · exact (init_merge_behaviour (fun _ _ => [("city", "Chicago")])
      (fun _ _ => []) ["windy city"] [("city", "unknown"), ("instructions_", "none")]
      "windy city" "city" "Chicago").1 ⟨rfl, by decide, by decide, rfl⟩
  · exact ((init_merge_behaviour (fun _ _ => [("city", "Chicago")])
      (fun _ _ => []) [] [("city", "unknown"), ("instructions_", "none")]
      "x" "city" "Chicago").2 (Or.inl rfl)).1

/-! ## C4, C5: Batch Mapper claims -/

theorem collectOk_of_all_ok (tasks : List (Except ε α))
    (h : ∀ t ∈ tasks, ∃ v, t = .ok v) :
    ∃ l, collectOk tasks = .ok l ∧ l.map Except.ok = tasks := by
  induction tasks with
  | nil => exact ⟨[], rfl, rfl⟩
  | cons t rest ih =>
    obtain ⟨v, hv⟩ := h t (List.mem_cons_self _ _)
    subst hv
    obtain ⟨l, hl, hmap⟩ := ih (fun x hx => h x (List.mem_cons_of_mem _ hx))
    exact ⟨v :: l, by simp [collectOk, hl, Except.map], by simp [hmap]⟩

theorem firstCompletedError_none_of_all_ok (tasks : List (Except ε α))
    (perm : List Nat) (h : ∀ t ∈ tasks, ∃ v, t = .ok v) :
    firstCompletedError tasks perm = none := by
  induction perm with
  | nil => rfl
  | cons i rest ih =>
    unfold firstCompletedError
    cases hi : tasks.get? i with
    | none => exact ih
    | some t =>
      cases t with
      | ok v => exact ih
      | error e =>
        obtain ⟨v, hv⟩ := h _ (List.get?_mem hi)
        cases hv

theorem firstCompletedError_nil (perm : List Nat) :
    firstCompletedError ([] : List (Except ε α)) perm = none := by
  induction perm with
  | nil => rfl
  | cons i rest ih =>
    unfold firstCompletedError
    cases hi : ([] : List (Except ε α)).get? i with
    | none => exact ih
    | some t => simp [List.get?] at hi

theorem firstCompletedError_finds (tasks : List (Except ε α)) (perm : List Nat)
    (i : Nat) (e : ε) (hi : tasks.get? i = some (.error e)) (hmem : i ∈ perm) :
    ∃ e', firstCompletedError tasks perm = some e'
      ∧ ∃ j, tasks.get? j = some (.error e') := by
  induction perm with
  | nil => cases hmem
  | cons i₀ rest ih =>
    unfold firstCompletedError
    cases hi₀ : tasks.get? i₀ with
    | none =>
      have hne : i ≠ i₀ := fun hh => by rw [hh, hi₀] at hi; cases hi
      exact ih (List.mem_of_ne_of_mem hne hmem)
    | some t =>
      cases t with
      | ok v =>
        have hne : i ≠ i₀ := fun hh => by rw [hh, hi₀] at hi; cases hi
        exact ih (List.mem_of_ne_of_mem hne hmem)
      | error e₀ => exact ⟨e₀, rfl, i₀, hi₀⟩

/-- C4: if any per-index extraction call of a batch fails, the whole
`amap`/`map` call fails — it never returns a result list — and the error it
fails with is the error raised by one of the per-index calls (exactly the
failing call's error when that call is the only failure); finished sibling
results are discarded, not partially returned. -/
theorem batch_all_or_nothing (call : List σ → List (String × σ) → Except ε β)
    (perm : List Nat) (map_args : List (List σ))
    (map_kwargs : List (String × List σ)) (i : Nat) (e : ε)
    (hi : (amapTasks call map_args map_kwargs).get? i = some (.error e))
    (hperm : ∀ j, j < (amapTasks call map_args map_kwargs).length → j ∈ perm) :
    (∀ l, amap call perm map_args map_kwargs ≠ .ok l)
    ∧ (∃ e', amap call perm map_args map_kwargs = .error e'
        ∧ ∃ j, (amapTasks call map_args map_kwargs).get? j = some (.error e'))
    ∧ ((∀ j e', (amapTasks call map_args map_kwargs).get? j = some (.error e') → e' = e)
        → amap call perm map_args map_kwargs = .error e) := by
  have hlt : i < (amapTasks call map_args map_kwargs).length :=
    (List.get?_eq_some.mp hi).1
  obtain ⟨e', he', j, hj⟩ :=
    firstCompletedError_finds _ perm i e hi (hperm i hlt)
  refine ⟨?_, ⟨e', ?_, j, hj⟩, ?_⟩
  · intro l hl
    unfold amap gatherEx at hl
    rw [he'] at hl
    cases hl
  · unfold amap gatherEx
    rw [he']
  · intro huniq
    unfold amap gatherEx
    rw [he', huniq j e' hj]

/-- Witness for C4: a three-item batch whose middle call raises fails as a
whole with that error. -/
theorem batch_all_or_nothing_witness :
    amap
      (fun (a : List String) (_ : List (String × String)) =>
        if a = ["bad"] then (Except.error "boom" : Except String (List String))
        else Except.ok a)
      [2, 0, 1] [["x", "bad", "y"]] [] = .error "boom" := by
  refine (batch_all_or_nothing
    (fun (a : List String) (_ : List (String × String)) =>
      if a = ["bad"] then (Except.error "boom" : Except String (List String))
      else Except.ok a)
    [2, 0, 1] [["x", "bad", "y"]] [] 1 "boom" rfl (by decide)).2.2 ?_
  intro j e' hj
  have htasks : amapTasks
      (fun (a : List String) (_ : List (String × String)) =>
        if a = ["bad"] then (Except.error "boom" : Except String (List String))
        else Except.ok a)
      [["x", "bad", "y"]] []
      = [Except.ok ["x"], Except.error "boom", Except.ok ["y"]] := rfl
  rw [htasks] at hj
  match j with
  | 0 => simp [List.get?] at hj
  | 1 =>
    simp only [List.get?] at hj
    cases hj
    rfl
  | 2 => simp [List.get?] at hj
  | (n + 3) => simp [List.get?] at hj

/-- Counterexample for C5: a keyword-only batch of two items issues zero
calls and succeeds with the empty result list, instead of running one call
per index. -/
theorem batch_kwargs_only_empty :
    amap
      (fun (a : List String) (k : List (String × String)) =>
        (Except.ok (a, k) : Except Unit (List String × List (String × String))))
      [0, 1] [] [("city", ["windy city", "big apple"])] = .ok []
    ∧ (amapTasks
        (fun (a : List String) (k : List (String × String)) =>
          (Except.ok (a, k) : Except Unit (List String × List (String × String))))
        [] [("city", ["windy city", "big apple"])]).length = 0 :=
  ⟨rfl, rfl⟩

/-- C5 (amended): when every per-index call succeeds, `amap` returns the
results in input order — one per entry of the transposed argument
sequences — whatever the completion order of the concurrent calls; however
a batch given only keyword-argument sequences issues no calls at all and
returns the empty list, because `zip(*map_args)` is empty when `map_args`
is empty. -/
theorem batch_ordering_amended (call : List σ → List (String × σ) → Except ε β)
    (perm : List Nat) (map_args : List (List σ))
    (map_kwargs : List (String × List σ)) :
    ((∀ t ∈ amapTasks call map_args map_kwargs, ∃ v, t = .ok v) →
      ∃ l, amap call perm map_args map_kwargs = .ok l
        ∧ l.map Except.ok = amapTasks call map_args map_kwargs)
    ∧ (map_args = [] → map_kwargs ≠ [] →
        amap call perm map_args map_kwargs = .ok []) := by
  constructor
  · intro hok
    obtain ⟨l, hl, hmap⟩ := collectOk_of_all_ok _ hok
    refine ⟨l, ?_, hmap⟩
    unfold amap gatherEx
    rw [firstCompletedError_none_of_all_ok _ _ hok, hl]
  · intro hargs hkw
    subst hargs
    rcases hk : map_kwargs with _ | ⟨p, rest⟩
    · exact absurd hk hkw
    · have htasks : amapTasks call [] (p :: rest) = [] := rfl
      unfold amap
      rw [htasks]
      unfold gatherEx
      rw [firstCompletedError_nil]
      rfl

/-- Witness for C5 (amended): a two-item positional batch completing in
reverse order still returns results in input order, and a keyword-only
batch returns the empty list. -/
theorem batch_ordering_amended_witness :
    amap
      (fun (a : List String) (_ : List (String × String)) =>
        (Except.ok a : Except Unit (List String)))
      [1, 0] [["windy city", "big apple"]] [] = .ok [["windy city"], ["big apple"]]
    ∧ amap
      (fun (a : List String) (_ : List (String × String)) =>
        (Except.ok a : Except Unit (List String)))
      [1, 0] [] [("city", ["windy city", "big apple"])] = .ok [] := by
  constructor
  · obtain ⟨l, hl, hmap⟩ :=
      (batch_ordering_amended
        (fun (a : List String) (_ : List (String × String)) =>
          (Except.ok a : Except Unit (List String)))
        [1, 0] [["windy city", "big apple"]] []).1
        (by
          intro t ht
          have : t = Except.ok ["windy city"] ∨ t = Except.ok ["big apple"] := by
            simpa [amapTasks, pyzipN] using ht
          rcases this with h | h <;> exact ⟨_, h⟩)
    have htasks : amapTasks
        (fun (a : List String) (_ : List (String × String)) =>
          (Except.ok a : Except Unit (List String)))
        [["windy city", "big apple"]] []
        = [Except.ok ["windy city"], Except.ok ["big apple"]] := rfl
    rw [htasks] at hmap
    have hlval : l = [["windy city"], ["big apple"]] := by
      rcases l with _ | ⟨x, l⟩
      · simp at hmap
      · rcases l with _ | ⟨y, l⟩
        · simp at hmap
        · rcases l with _ | ⟨z, l⟩
          · obtain ⟨hx, hy⟩ := by simpa using hmap
            rw [hx, hy]
          · simp at hmap
    rw [hlval] at hl
    exact hl
  · exact (batch_ordering_amended
      (fun (a : List String) (_ : List (String × String)) =>
        (Except.ok a : Except Unit (List String)))
      [1, 0] [] [("city", ["windy city", "big apple"])]).2 rfl (by simp)

/-! ## C2, C3, C8, C9: Prompt Renderer claims

Closed forms for the rendering of the three source templates under the
environment `_messages` uses.
-/

/-- The `{% if instructions %}` block of the extract system prompt. -/
def extractInstrPart : Option String → String
  | some s =>
    if s = "" then ""
    else "\nThe user has provided some additional requirements for this task: "
      ++ (s ++ " \n")
  | none => ""

/-- The `{% if context_fn %}` block of the extract system prompt. -/
def extractCtxPart (ctx : Option (String → List (String × String)))
    (text : String) : String :=
  match ctx with
  | some f => "\n" ++ (String.join ((f text).map (fun p => p.1 ++ ": " ++ p.2)) ++ "\n")
  | none => ""

/-- The `{% if instructions %}` block of the generate system prompt. -/
def generateInstrPart : Option String → String
  | some s =>
    if s = "" then ""
    else "You have been provided instructions on completing your task: " ++ s
  | none => ""

/-- The `{% if context_fn %}` block of the generate system prompt. -/
def generateCtxPart (ctx : Option (String → List (String × String)))
    (text : String) : String :=
  match ctx with
  | some f => "You have been provided the following context to perform your task:\n"
      ++ String.join ((f text).map (fun p => "    - " ++ p.1 ++ ": " ++ p.2 ++ "\n"))
  | none => ""

/-- The extract system prompt rendered against text, the singleton
`format_response` registry, effective instructions and context function. -/
def renderedExtractSystem (eff : Option String)
    (ctx : Option (String → List (String × String))) (text : String) : String :=
  "The user will provide context as text that you need to parse into a structured form. \n    - To validate your response, you must call the `"
  ++ ("format_response"
  ++ ("` function.\n    - Use the provided text to extract or infer any parameters needed by `"
  ++ ("format_response"
  ++ ("`, including any missing data.\n                                      \n"
  ++ (extractInstrPart eff
  ++ ("\n                                         \n"
  ++ extractCtxPart ctx text))))))

/-- The generate system prompt rendered likewise. -/
def renderedGenerateSystem (eff : Option String)
    (ctx : Option (String → List (String × String))) (text : String) : String :=
  "The user will provide context as text that you need to parse to generate synthetic data.\n    - To validate your response, you must call the `"
  ++ ("format_response"
  ++ ("` function.\n    - Use the provided text to generate or invent any parameters needed by `"
  ++ ("format_response"
  ++ ("`, including any missing data.\n    - It is okay to make up representative data.\n"
  ++ (generateInstrPart eff
  ++ generateCtxPart ctx text)))))

theorem render_extract_system (eff : Option String)
    (ctx : Option (String → List (String × String))) (text : String) :
    render
      (envOf { text := text, functions := ["format_response"],
               instructions := eff, context_fn := ctx })
      systemExtractPrompt
      = .ok (renderedExtractSystem eff ctx text) := by
  rcases eff with _ | s₀
  · rcases ctx with _ | f <;>
      simp [systemExtractPrompt, jseq, List.foldr, render, envOf_text,
        envOf_functions, envOf_instructions, envOf_context_fn, truthy, display,
        renderedExtractSystem, extractInstrPart, extractCtxPart, Bind.bind,
        Except.bind, pure, Except.pure, String.append_empty, String.empty_append]
  · by_cases hs : s₀ = "" <;>
      rcases ctx with _ | f <;>
      simp [hs, systemExtractPrompt, jseq, List.foldr, render, envOf_text,
        envOf_functions, envOf_instructions, envOf_context_fn, truthy, display,
        renderedExtractSystem, extractInstrPart, extractCtxPart, Bind.bind,
        Except.bind, pure, Except.pure, String.append_empty, String.empty_append]

theorem render_generate_system (eff : Option String)
    (ctx : Option (String → List (String × String))) (text : String) :
    render
      (envOf { text := text, functions := ["format_response"],
               instructions := eff, context_fn := ctx })
      systemGeneratePrompt
      = .ok (renderedGenerateSystem eff ctx text) := by
  rcases eff with _ | s₀
  · rcases ctx with _ | f <;>
      simp [systemGeneratePrompt, jseq, List.foldr, render, envOf_text,
        envOf_functions, envOf_instructions, envOf_context_fn, truthy, display,
        renderedGenerateSystem, generateInstrPart, generateCtxPart, Bind.bind,
        Except.bind, pure, Except.pure, String.append_empty, String.empty_append]
  · by_cases hs : s₀ = "" <;>
      rcases ctx with _ | f <;>
      simp [hs, systemGeneratePrompt, jseq, List.foldr, render, envOf_text,
        envOf_functions, envOf_instructions, envOf_context_fn, truthy, display,
        renderedGenerateSystem, generateInstrPart, generateCtxPart, Bind.bind,
        Except.bind, pure, Except.pure, String.append_empty, String.empty_append]

theorem render_user_prompt (eff : Option String)
    (ctx : Option (String → List (String × String))) (text : String) :
    render
      (envOf { text := text, functions := ["format_response"],
               instructions := eff, context_fn := ctx })
      userPrompt
      = .ok ("The text to parse: " ++ (text ++ "\n    ")) := by
  simp [userPrompt, jseq, List.foldr, render, envOf_text, display, Bind.bind,
    Except.bind, pure, Except.pure, String.append_empty]

theorem aiMessages_extract (eff : Option String)
    (ctx : Option (String → List (String × String))) (text : String) :
    aiMessages systemExtractPrompt userPrompt
      (envOf { text := text, functions := ["format_response"],
               instructions := eff, context_fn := ctx })
      = .ok [⟨"system", pystrip (renderedExtractSystem eff ctx text)⟩,
             ⟨"user", pystrip ("The text to parse: " ++ (text ++ "\n    "))⟩] := by
  unfold aiMessages
  rw [render_extract_system, render_user_prompt]
  rfl

theorem aiMessages_generate (eff : Option String)
    (ctx : Option (String → List (String × String))) (text : String) :
    aiMessages systemGeneratePrompt userPrompt
      (envOf { text := text, functions := ["format_response"],
               instructions := eff, context_fn := ctx })
      = .ok [⟨"system", pystrip (renderedGenerateSystem eff ctx text)⟩,
             ⟨"user", pystrip ("The text to parse: " ++ (text ++ "\n    "))⟩] := by
  unfold aiMessages
  rw [render_generate_system, render_user_prompt]
  rfl

theorem asPromptMessages_mode (base : SchemaDefn) (instr : Option String)
    (ctx : Option (String → List (String × String))) (mode : Mode)
    (text : String) (ci : Option String) :
    asPromptMessages (as_decorator base none userPrompt instr ctx mode) text ci
      = aiMessages
          (match mode with
            | .extract => systemExtractPrompt
            | .generate => systemGeneratePrompt)
          userPrompt
          (envOf { text := text, functions := ["format_response"],
                   instructions := match ci with
                     | some s => if s = "" then instr else some s
                     | none => instr,
                   context_fn := ctx }) := rfl

/-- Counterexample for C2: a prompt template that references the undefined
variable `missing` renders successfully — the variable is silently replaced
by the empty string, the message list is produced, and no error surfaces. -/
theorem template_undefined_swallowed :
    aiMessages (.var "missing") (.lit "some text")
      (envOf { text := "t", functions := ["format_response"],
               instructions := none, context_fn := none })
      = .ok [⟨"system", ""⟩, ⟨"user", "some text"⟩] := rfl

/-- C2 (amended): rendering surfaces a template error only when the
template performs an operation on an undefined variable — subscripting or
attribute access, as the system templates do via `functions[0].__name__`,
or calling it, as the context-function loop does; a bare interpolation of
an undefined variable silently renders as the empty string and a
truthiness test of it is silently false, so such templates render without
any error. -/
theorem template_error_amended (env : String → Option JValue) (n tn : String)
    (item : String → String → String) (body : JTmpl) (h : env n = none) :
    render env (.idx0Name n) = .error .undefinedError
    ∧ render env (.forCtx n tn item) = .error .undefinedError
    ∧ render env (.var n) = .ok ""
    ∧ render env (.ifTruthy n body) = .ok "" := by
  refine ⟨?_, ?_, ?_, ?_⟩ <;> simp [render, h, truthy]

/-- Witness for C2 (amended) on the variables the source templates use. -/
theorem template_error_amended_witness :
    render (fun _ => none) (.idx0Name "functions") = .error .undefinedError
    ∧ render (fun _ => none)
        (.forCtx "context_fn" "text" (fun a v => a ++ ": " ++ v))
      = .error .undefinedError
    ∧ render (fun _ => none) (.var "missing") = .ok ""
    ∧ render (fun _ => none) (.ifTruthy "instructions" (.lit "x")) = .ok "" :=
  ⟨(template_error_amended (fun _ => none) "functions" "text"
      (fun a v => a ++ ": " ++ v) (.lit "x") rfl).1,
   (template_error_amended (fun _ => none) "context_fn" "text"
      (fun a v => a ++ ": " ++ v) (.lit "x") rfl).2.1,
   (template_error_amended (fun _ => none) "missing" "text"
      (fun a v => a ++ ": " ++ v) (.lit "x") rfl).2.2.1,
   (template_error_amended (fun _ => none) "instructions" "text"
      (fun a v => a ++ ": " ++ v) (.lit "x") rfl).2.2.2⟩

/-- C3: every extraction call (a subclass decorated in `extract` mode,
rendered through `as_prompt`) produces exactly two messages whose contents
are non-empty and stripped of leading/trailing whitespace, for every input
text, instructions and context function. -/
theorem extraction_messages_nonempty_trimmed (base : SchemaDefn)
    (instr : Option String)
    (ctx : Option (String → List (String × String)))
    (text : String) (ci : Option String) :
    ∃ s u,
      asPromptMessages (as_decorator base none userPrompt instr ctx .extract)
          text ci = .ok [⟨"system", s⟩, ⟨"user", u⟩]
      ∧ s ≠ "" ∧ u ≠ "" ∧ pystrip s = s ∧ pystrip u = u := by
  rw [asPromptMessages_mode, aiMessages_extract]
  refine ⟨_, _, rfl, ?_, ?_, pystrip_pystrip _, pystrip_pystrip _⟩
  · unfold renderedExtractSystem
    exact pystrip_append_ne_empty _ _ 'T' (by decide) (by decide)
  · exact pystrip_append_ne_empty _ _ 'T' (by decide) (by decide)

/-- C8: every extraction call renders exactly two messages, in order a
`"system"` message (the stripped instruction text) and a `"user"` message
whose content is the input text under the fixed `"The text to parse:"`
framing, stripped of leading and trailing whitespace. -/
theorem extraction_messages_shape (base : SchemaDefn) (instr : Option String)
    (ctx : Option (String → List (String × String)))
    (text : String) (ci : Option String) :
    ∃ s,
      asPromptMessages (as_decorator base none userPrompt instr ctx .extract)
          text ci
        = .ok [⟨"system", s⟩,
               ⟨"user", pystrip ("The text to parse: " ++ text)⟩]
      ∧ pystrip s = s := by
  rw [asPromptMessages_mode, aiMessages_extract]
  have huser : pystrip ("The text to parse: " ++ (text ++ "\n    "))
      = pystrip ("The text to parse: " ++ text) := by
    rw [← string_append_assoc]
    exact pystrip_append_ws _ _ (by decide)
  rw [huser]
  exact ⟨_, rfl, pystrip_pystrip _⟩

/-- C9: prompt rendering is deterministic — two renderings with the same
text, the same instructions, the same (decorator-configured) templates,
and context functions that agree on the input text produce identical
system and user messages. -/
theorem prompt_determinism (base : SchemaDefn) (instr : Option String)
    (ctx₁ ctx₂ : Option (String → List (String × String))) (mode : Mode)
    (text : String) (ci : Option String)
    (h : (ctx₁ = none ∧ ctx₂ = none)
      ∨ (∃ f₁ f₂, ctx₁ = some f₁ ∧ ctx₂ = some f₂ ∧ f₁ text = f₂ text)) :
    asPromptMessages (as_decorator base none userPrompt instr ctx₁ mode) text ci
      = asPromptMessages (as_decorator base none userPrompt instr ctx₂ mode)
          text ci := by
  rcases h with ⟨h₁, h₂⟩ | ⟨f₁, f₂, h₁, h₂, hf⟩
  · rw [h₁, h₂]
  · rw [h₁, h₂, asPromptMessages_mode, asPromptMessages_mode]
    cases mode with
    | extract =>
      rw [aiMessages_extract, aiMessages_extract]
      simp [renderedExtractSystem, extractCtxPart, hf]
    | generate =>
      rw [aiMessages_generate, aiMessages_generate]
      simp [renderedGenerateSystem, generateCtxPart, hf]

/-- Witness for C9 at a concrete schema, text and pair of context
functions agreeing on the text. -/
theorem prompt_determinism_witness :
    asPromptMessages
      (as_decorator ⟨"Location", [("city", "string")]⟩ none userPrompt none
        (some (fun _ => [("The current date is", "Monday")])) .extract)
      "windy city" none
    = asPromptMessages
      (as_decorator ⟨"Location", [("city", "string")]⟩ none userPrompt none
        (some (fun t => [("The current date is", (t.take 0) ++ "Monday")])) .extract)
      "windy city" none :=
  prompt_determinism ⟨"Location", [("city", "string")]⟩ none
    (some (fun _ => [("The current date is", "Monday")]))
    (some (fun t => [("The current date is", (t.take 0) ++ "Monday")]))
    .extract "windy city" none
    (Or.inr ⟨_, _, rfl, rfl, rfl⟩)
